import Mathlib

/-!
Verification of the eager-execution engine `DirectOperator`
(`dali/pipeline/operator/direct_operator.h`).

The file shallowly embeds the header's data model and control flow:
batch containers (`TensorList` dense / `TensorVector` per-sample, here one
`Batch` structure with a `dense` tag playing the role of the static type),
the per-call workspace, the operator interface (`Setup`/`CanInferOutputs`/
`Run`), the `AsTensorList` conversion overloads, the `RunImpl` body, the
three specialized `Run` overloads plus the generic unsupported-pair
fallbacks, and the per-wrapper-type shared thread pool / CUDA stream
statics.  Storage sharing of `shared_ptr` buffers is modelled by a storage
id (`sid`); fresh allocations draw ids from an explicit counter.  Stream
synchronizations and the main execution steps are recorded in an event
trace.
-/

deriving instance DecidableEq for Except

namespace DaliDirect

/-- Data backend of a batch container (`TensorList<Backend>`):
`CPUBackend` or `GPUBackend`. -/
inductive DataBackend
| cpu
| gpu
deriving DecidableEq, Repr

/-- Wrapper backend of `DirectOperator<Backend>`:
`CPUBackend`, `GPUBackend` or `MixedBackend`. -/
inductive OpBackend
| cpu
| gpu
| mixed
deriving DecidableEq, Repr

/-- One sample of a batch: its shape and its flat element data. -/
structure Sample where
  shape : List Nat
  data : List Int
deriving DecidableEq, Repr

/-- A batch container behind a `shared_ptr`.  `dense = true` models the
static type `TensorList` (contiguous buffer), `dense = false` models
`TensorVector` (per-sample buffers).  `sid` is the identity of the
underlying storage: two handles with equal `sid` share storage. -/
structure Batch where
  dense : Bool
  sid : Nat
  samples : List Sample
  dtype : Nat
  layout : String
deriving DecidableEq, Repr

/-- Fallback batch used to model an out-of-bounds container access. -/
def defaultBatch : Batch :=
  { dense := true, sid := 0, samples := [], dtype := 0, layout := "" }

/-- Uniform sample rank of a batch (`shape().sample_dim()`). -/
def Batch.sampleDim (b : Batch) : Nat :=
  ((b.samples.head?).map (fun s => s.shape.length)).getD 0

/-- Product of the extents of a shape (number of elements of a sample). -/
def listProd : List Nat → Nat
  | [] => 1
  | d :: ds => d * listProd ds

/-- `Resize(shape, type)` on a dense container: the per-sample shapes and
the element type are set from the arguments and a buffer of matching size
is (re)allocated; freshly allocated elements are modelled as zeros. -/
def Batch.resize (b : Batch) (shape : List (List Nat)) (ty : Nat) : Batch :=
  { b with
    samples := shape.map (fun s => { shape := s, data := List.replicate (listProd s) 0 })
    dtype := ty }

/-- `AsTensorList(shared_ptr<TensorList>)` (direct_operator.h:32-35):
returns its argument unchanged. -/
def AsTensorListDense (input : Batch) : Batch :=
  input

/-- `AsTensorList(shared_ptr<TensorVector>)` (direct_operator.h:37-43):
allocates a fresh `TensorList` (storage id `freshSid`) and copies the
samples, element type and layout of the source into it. -/
def AsTensorListPerSample (freshSid : Nat) (input : Batch) : Batch :=
  { dense := true
    sid := freshSid
    samples := input.samples
    dtype := input.dtype
    layout := input.layout }

/-- Overload dispatch of `AsTensorList`, selected in C++ by the static
type of the argument (here by the `dense` tag). -/
def AsTensorList (freshSid : Nat) (input : Batch) : Batch :=
  if input.dense then AsTensorListDense input else AsTensorListPerSample freshSid input

/-- An `OutputDesc`: per-output shape list and element type. -/
structure OutputDesc where
  shape : List (List Nat)
  type : Nat
deriving DecidableEq, Repr

/-- Unchecked `output_desc[i]` (direct_operator.h:219): the C++ indexing
has no bounds check; the out-of-bounds case is modelled by a default
descriptor. -/
def descAt (descs : List OutputDesc) (i : Nat) : OutputDesc :=
  (descs.get? i).getD { shape := [], type := 0 }

/-- Configuration of a `ThreadPool(num_threads, device_id, set_affinity)`. -/
structure ThreadPoolCfg where
  numThreads : Int
  deviceId : Int
  setAffinity : Bool
deriving DecidableEq, Repr

/-- The operator schema, an external collaborator: declared output count
(`NumOutput`) and default-layout lookup
(`GetInputLayout(in_idx, sample_dim, cur_layout)`, empty result when the
schema declares no default). -/
structure OpSchema where
  numOutput : Nat
  getInputLayout : Nat → Nat → String → String

/-- The `OpSpec`: the `max_batch_size` argument and the schema. -/
structure OpSpec where
  maxBatchSize : Nat
  schema : OpSchema

/-- The transient per-call workspace. -/
structure Workspace where
  inputs : List Batch
  argInputs : List (String × Batch)
  outputs : List Batch
  threadPool : Option ThreadPoolCfg
  stream : Option Nat
  batchSize : Nat
deriving DecidableEq, Repr

/-- `ws.Clear()`: all per-call state is dropped. -/
def Workspace.clear (_ : Workspace) : Workspace :=
  { inputs := []
    argInputs := []
    outputs := []
    threadPool := none
    stream := none
    batchSize := 0 }

/-- The operator behind `op`, an external collaborator: the
`CanInferOutputs` capability flag, fallible `Setup` (returns whether
descriptors were produced, and the descriptor list it filled in), and
fallible `Run` (transforms the workspace, populating outputs). -/
structure OperatorBase where
  canInferOutputs : Bool
  setup : Workspace → Except String (Bool × List OutputDesc)
  run : Workspace → Except String Workspace

/-- The `DirectOperator` members fixed at construction
(direct_operator.h:51-55, 102-106). -/
structure DirectOperator where
  batch_size : Nat
  num_outputs : Nat
  op_spec : OpSpec
  op : OperatorBase

/-- The `DirectOperator(const OpSpec&)` constructor: `batch_size` from the
`max_batch_size` argument, `num_outputs` from the schema's `NumOutput`,
the operator from the factory (`InstantiateOperator`). -/
def DirectOperator.ofSpec (spec : OpSpec) (instantiate : OpSpec → OperatorBase) :
    DirectOperator :=
  { batch_size := spec.maxBatchSize
    num_outputs := spec.schema.numOutput
    op_spec := spec
    op := instantiate spec }

/-- Wrapping of one input batch for the workspace
(direct_operator.h:185-198): a fresh `WSInputType` container shares the
input's storage (`ShareData`, same `sid`, same samples and layout), and if
its layout is empty the schema's default layout for this input index and
sample rank is assigned, when the schema declares one. -/
def wrapInput (schema : OpSchema) (wsInDense : Bool) (inIdx : Nat) (inp : Batch) : Batch :=
  let t : Batch := { inp with dense := wsInDense }
  if t.layout = "" then
    let defaultLayout := schema.getInputLayout inIdx t.sampleDim t.layout
    if defaultLayout ≠ "" then { t with layout := defaultLayout } else t
  else t

/-- A fresh `WSOutputType(batch_size)` output slot (direct_operator.h:211):
a newly allocated container with `batch_size` empty samples. -/
def freshOutput (wsOutDense : Bool) (sid : Nat) (batchSize : Nat) : Batch :=
  { dense := wsOutDense
    sid := sid
    samples := List.replicate batchSize { shape := [], data := [] }
    dtype := 0
    layout := "" }

/-- The resize loop of `RunImpl` (direct_operator.h:218-220): output slot
`i` is resized to `output_desc[i]` for every `i < n`; slots past `n` (none
in an actual call) are untouched.  `i0` is the index of the first slot of
the remaining list. -/
def resizeLoop (descs : List OutputDesc) (n : Nat) (i0 : Nat) : List Batch → List Batch
  | [] => []
  | b :: rest =>
      (if i0 < n then b.resize (descAt descs i0).shape (descAt descs i0).type else b)
        :: resizeLoop descs n (i0 + 1) rest

/-- The output-materialization step (direct_operator.h:216-221): when
`Setup` returned descriptors and the operator can infer outputs, every
output slot is resized to its descriptor; otherwise the workspace is left
untouched. -/
def materialize (canInfer setupRet : Bool) (descs : List OutputDesc) (n : Nat)
    (ws : Workspace) : Workspace :=
  if setupRet && canInfer then
    { ws with outputs := resizeLoop descs n 0 ws.outputs }
  else ws

/-- Observable engine steps, recorded in call order.  `streamSync` is a
`cudaStreamSynchronize` issued by the engine; the remaining events mark
workspace population, `Setup`, completed operator `Run` and output
collection. -/
inductive Event
| streamSync
| addInput
| addArg
| addOutput
| opSetup
| opRun
| collect
deriving DecidableEq, Repr

/-- Result of one `RunImpl` execution: `err = none` means the call
completed without error.  `ws` is the workspace as left by the call (after
the operator's `Run` on the success path), `trace` the emitted events and
`nextSid` the storage-id counter after the call's allocations. -/
structure RunResult where
  err : Option String
  outputs : List Batch
  ws : Workspace
  trace : List Event
  nextSid : Nat
deriving DecidableEq, Repr

/-- The workspace-population phase of `RunImpl`
(direct_operator.h:184-214): wraps and adds each input (sharing storage,
assigning the default layout when the batch carries none), registers the
keyword arguments as argument inputs, appends one fresh output slot per
declared output sized to `batch_size`, and records the batch size. -/
def assembleWs (dop : DirectOperator) (wsInDense wsOutDense : Bool) (ws0 : Workspace)
    (sid0 : Nat) (inputs : List Batch) (kwargs : List (String × Batch)) : Workspace :=
  let wrapped := inputs.enum.map (fun p => wrapInput dop.op_spec.schema wsInDense p.1 p.2)
  let ws1 : Workspace := { ws0 with inputs := ws0.inputs ++ wrapped }
  let ws2 : Workspace := { ws1 with argInputs := ws1.argInputs ++ kwargs }
  let slots := (List.range dop.num_outputs).map
    (fun i => freshOutput wsOutDense (sid0 + i) dop.batch_size)
  { ws2 with outputs := ws2.outputs ++ slots, batchSize := dop.batch_size }

/-- Events of the workspace-population phase followed by `Setup`. -/
def assembleTrace (dop : DirectOperator) (inputs : List Batch)
    (kwargs : List (String × Batch)) : List Event :=
  (inputs.map (fun _ => Event.addInput)) ++ (kwargs.map (fun _ => Event.addArg))
    ++ ((List.range dop.num_outputs).map (fun _ => Event.addOutput)) ++ [Event.opSetup]

/-- The output-collection loop of `RunImpl` (direct_operator.h:225-227):
output slot `i` of the post-`Run` workspace becomes element `i` of the
returned vector, converted through `AsTensorList` (with a fresh storage id
for the copying overload). -/
def collectOutputs (n : Nat) (sid1 : Nat) (ws5 : Workspace) : List Batch :=
  (List.range n).map (fun i => AsTensorList (sid1 + i) (ws5.outputs.getD i defaultBatch))

/-- `DirectOperator::RunImpl` (direct_operator.h:179-230): populates the
workspace (`assembleWs`), runs `Setup`, materializes the outputs from the
descriptors when possible (`materialize`), runs the operator, and collects
every output slot through `AsTensorList` in declaration order
(`collectOutputs`). -/
def RunImpl (dop : DirectOperator) (wsInDense wsOutDense : Bool) (ws0 : Workspace)
    (sid0 : Nat) (inputs : List Batch) (kwargs : List (String × Batch)) : RunResult :=
  match dop.op.setup (assembleWs dop wsInDense wsOutDense ws0 sid0 inputs kwargs) with
  | Except.error e =>
      { err := some e
        outputs := []
        ws := assembleWs dop wsInDense wsOutDense ws0 sid0 inputs kwargs
        trace := assembleTrace dop inputs kwargs
        nextSid := sid0 + dop.num_outputs }
  | Except.ok (setupRet, descs) =>
    match dop.op.run (materialize dop.op.canInferOutputs setupRet descs dop.num_outputs
        (assembleWs dop wsInDense wsOutDense ws0 sid0 inputs kwargs)) with
    | Except.error e =>
        { err := some e
          outputs := []
          ws := materialize dop.op.canInferOutputs setupRet descs dop.num_outputs
            (assembleWs dop wsInDense wsOutDense ws0 sid0 inputs kwargs)
          trace := assembleTrace dop inputs kwargs
          nextSid := sid0 + dop.num_outputs }
    | Except.ok ws5 =>
      { err := none
        outputs := collectOutputs dop.num_outputs (sid0 + dop.num_outputs) ws5
        ws := ws5
        trace := assembleTrace dop inputs kwargs ++ [Event.opRun]
          ++ (collectOutputs dop.num_outputs (sid0 + dop.num_outputs) ws5).map
            (fun _ => Event.collect)
        nextSid := sid0 + dop.num_outputs + dop.num_outputs }

/-- The mutable state of one `DirectOperator` instance between calls: its
owned workspace and the storage-id counter of the allocation model. -/
structure EngineState where
  ws : Workspace
  nextSid : Nat
deriving DecidableEq, Repr

/-- Observable outcome of one `Run` call: the returned vector of output
batches (or the thrown error), the instance state after the call and the
event trace. -/
structure CallResult where
  res : Except String (List Batch)
  st : EngineState
  trace : List Event
deriving DecidableEq

/-- Packaging of a `RunResult` as the outcome of a public `Run` call. -/
def finishCall (r : RunResult) (pre : List Event) (post : List Event) : CallResult :=
  { res := match r.err with
      | some e => Except.error e
      | none => Except.ok r.outputs
    st := { ws := r.ws, nextSid := r.nextSid }
    trace := pre ++ r.trace ++ (if r.err = none then post else []) }

/-- `Run` with an explicit thread pool (direct_operator.h:66-72, 112-123):
specialized only for the host wrapper with host input and host output
(`WSInputType = WSOutputType = TensorVector`); any other combination hits
the generic overload, which fails with the unsupported-combination error
before touching any state. -/
def RunWithThreadPool (dop : DirectOperator) (wrapper : OpBackend)
    (inB outB : DataBackend) (tp : ThreadPoolCfg) (st : EngineState)
    (inputs : List Batch) (kwargs : List (String × Batch)) : CallResult :=
  match wrapper, inB, outB with
  | OpBackend.cpu, DataBackend.cpu, DataBackend.cpu =>
    let ws1 : Workspace := { st.ws.clear with threadPool := some tp }
    finishCall (RunImpl dop false false ws1 st.nextSid inputs kwargs) [] []
  | _, _, _ =>
    { res := Except.error "Unsupported backends in DirectOperator.Run() with thread pool."
      st := st
      trace := [] }

/-- `Run` with an explicit CUDA stream (direct_operator.h:74-81, 125-153):
specialized for the accelerator wrapper (GPU input, GPU output, dense
workspace containers) and the staged wrapper (host input, GPU output).
Both specializations synchronize the stream before `RunImpl` populates the
workspace and — when `RunImpl` returns normally — again after the
operator's `Run`, before the outputs are returned.  Any other combination
hits the generic overload, which fails with the unsupported-combination
error before touching any state. -/
def RunWithCudaStream (dop : DirectOperator) (wrapper : OpBackend)
    (inB outB : DataBackend) (stream : Nat) (st : EngineState)
    (inputs : List Batch) (kwargs : List (String × Batch)) : CallResult :=
  match wrapper, inB, outB with
  | OpBackend.gpu, DataBackend.gpu, DataBackend.gpu =>
    let ws1 : Workspace := { st.ws.clear with stream := some stream }
    finishCall (RunImpl dop true true ws1 st.nextSid inputs kwargs)
      [Event.streamSync] [Event.streamSync]
  | OpBackend.mixed, DataBackend.cpu, DataBackend.gpu =>
    let ws1 : Workspace := { st.ws.clear with stream := some stream }
    finishCall (RunImpl dop false true ws1 st.nextSid inputs kwargs)
      [Event.streamSync] [Event.streamSync]
  | _, _, _ =>
    { res := Except.error "Unsupported backends in DirectOperator.Run() with CUDA stream"
      st := st
      trace := [] }

/-- The per-wrapper-type static members `shared_thread_pool` and
`shared_cuda_stream` (direct_operator.h:108-109, 232-237): each
instantiation `DirectOperator<Backend>` owns its own pair. -/
structure GlobalState where
  sharedThreadPool : OpBackend → ThreadPoolCfg
  sharedCudaStream : OpBackend → Nat

/-- The static initializers: a `ThreadPool(1, 0, false)` and the default
stream `0`, for every wrapper type. -/
def initialGlobalState : GlobalState :=
  { sharedThreadPool := fun _ => { numThreads := 1, deviceId := 0, setAffinity := false }
    sharedCudaStream := fun _ => 0 }

/-- `DirectOperator<Backend>::SetThreadPool` (direct_operator.h:84-86):
replaces the shared thread pool of this wrapper type with a freshly
constructed `ThreadPool(num_threads, device_id, set_affinity)`. -/
def SetThreadPool (w : OpBackend) (numThreads deviceId : Int) (setAffinity : Bool)
    (g : GlobalState) : GlobalState :=
  { g with sharedThreadPool := fun w2 =>
      if w2 = w then { numThreads := numThreads, deviceId := deviceId, setAffinity := setAffinity }
      else g.sharedThreadPool w2 }

/-- The host-only device id `CPU_ONLY_DEVICE_ID` of the DALI core, an
external constant (its concrete value is irrelevant here). -/
def CPU_ONLY_DEVICE_ID : Int := -1

/-- `DirectOperator<Backend>::SetCudaStream` (direct_operator.h:89-94):
for a non-host device id, acquires a stream for that device from the
stream pool (the external collaborator `poolGet`) and installs it as this
wrapper type's shared stream; a no-op for the host-only device id. -/
def SetCudaStream (poolGet : Int → Nat) (w : OpBackend) (deviceId : Int)
    (g : GlobalState) : GlobalState :=
  if deviceId ≠ CPU_ONLY_DEVICE_ID then
    { g with sharedCudaStream := fun w2 =>
        if w2 = w then poolGet deviceId else g.sharedCudaStream w2 }
  else g

/-- The default-path `Run` (direct_operator.h:57-63, 155-177): the three
specializations forward to the explicit-binding overload, passing the
wrapper type's shared thread pool (host) or shared CUDA stream
(accelerator, staged); any other combination fails with the
unsupported-combination error before touching any state. -/
def RunDefault (dop : DirectOperator) (wrapper : OpBackend) (inB outB : DataBackend)
    (g : GlobalState) (st : EngineState) (inputs : List Batch)
    (kwargs : List (String × Batch)) : CallResult :=
  match wrapper, inB, outB with
  | OpBackend.cpu, DataBackend.cpu, DataBackend.cpu =>
    RunWithThreadPool dop OpBackend.cpu DataBackend.cpu DataBackend.cpu
      (g.sharedThreadPool OpBackend.cpu) st inputs kwargs
  | OpBackend.gpu, DataBackend.gpu, DataBackend.gpu =>
    RunWithCudaStream dop OpBackend.gpu DataBackend.gpu DataBackend.gpu
      (g.sharedCudaStream OpBackend.gpu) st inputs kwargs
  | OpBackend.mixed, DataBackend.cpu, DataBackend.gpu =>
    RunWithCudaStream dop OpBackend.mixed DataBackend.cpu DataBackend.gpu
      (g.sharedCudaStream OpBackend.mixed) st inputs kwargs
  | _, _, _ =>
    { res := Except.error "Unsupported backends in DirectOperator.Run()."
      st := st
      trace := [] }

/-! Concrete fixtures used to evaluate the development on closed inputs:
the spec's "increment" scenario (one input, one output, each output
element is the matching input element plus one). -/

/-- A schema with one output and no declared default layouts. -/
def sampleSchema : OpSchema :=
  { numOutput := 1, getInputLayout := fun _ _ _ => "" }

/-- An `OpSpec` for the sample operator: `max_batch_size` 4. -/
def sampleSpec : OpSpec :=
  { maxBatchSize := 4, schema := sampleSchema }

/-- The increment operator: `Setup` infers the output descriptor from
input 0 and `Run` fills every output with input 0's data plus one. -/
def sampleOp : OperatorBase :=
  { canInferOutputs := true
    setup := fun ws =>
      let inp := ws.inputs.getD 0 defaultBatch
      Except.ok (true, [{ shape := inp.samples.map Sample.shape, type := inp.dtype }])
    run := fun ws =>
      let inp := ws.inputs.getD 0 defaultBatch
      Except.ok { ws with outputs := ws.outputs.map (fun o =>
        { o with
          samples := inp.samples.map (fun s => { s with data := s.data.map (fun v => v + 1) })
          dtype := inp.dtype }) } }

/-- The sample engine wrapper, built by the constructor from the spec. -/
def sampleDop : DirectOperator :=
  DirectOperator.ofSpec sampleSpec (fun _ => sampleOp)

/-- An input batch `{1, 2, 3, 4}` (two samples of two elements). -/
def sampleInput (dense : Bool) : Batch :=
  { dense := dense
    sid := 7
    samples := [{ shape := [2], data := [1, 2] }, { shape := [2], data := [3, 4] }]
    dtype := 3
    layout := "" }

/-- A fresh engine state: an empty workspace and storage ids from 100. -/
def sampleState : EngineState :=
  { ws := Workspace.clear
      { inputs := [], argInputs := [], outputs := [], threadPool := none,
        stream := none, batchSize := 0 }
    nextSid := 100 }

/-- A sample explicit thread-pool binding. -/
def sampleTp : ThreadPoolCfg :=
  { numThreads := 2, deviceId := 0, setAffinity := false }

/-- Output of the host-path sample run: `{2, 3, 4, 5}`, copied out of the
per-sample output slot into a fresh dense batch (storage id 101). -/
def sampleCpuOut : Batch :=
  { dense := true
    sid := 101
    samples := [{ shape := [2], data := [2, 3] }, { shape := [2], data := [4, 5] }]
    dtype := 3
    layout := "" }

/-- Output of the accelerator-path and staged-path sample runs: `{2, 3, 4,
5}` in the dense output slot itself (storage id 100, identity
conversion). -/
def sampleGpuOut : Batch :=
  { dense := true
    sid := 100
    samples := [{ shape := [2], data := [2, 3] }, { shape := [2], data := [4, 5] }]
    dtype := 3
    layout := "" }

/-- A sample descriptor list for one output of two two-element samples. -/
def sampleDescs : List OutputDesc :=
  [{ shape := [[2], [2]], type := 3 }]

/-- A sample assembled workspace with one fresh output slot. -/
def sampleWs3 : Workspace :=
  { inputs := [sampleInput false]
    argInputs := []
    outputs := [freshOutput false 100 4]
    threadPool := some sampleTp
    stream := none
    batchSize := 4 }

/-! ## Supporting lemmas -/

/-- A successful `finishCall` means the underlying `RunImpl` completed
without error and its outputs are the returned vector. -/
theorem finishCall_ok (r : RunResult) (pre post : List Event) (outs : List Batch)
    (h : (finishCall r pre post).res = Except.ok outs) :
    r.err = none ∧ r.outputs = outs := by
  unfold finishCall at h
  cases he : r.err with
  | some e => rw [he] at h; exact absurd h (by simp)
  | none => rw [he] at h; exact ⟨rfl, by simpa using h⟩

/-- The collection loop produces one element per declared output. -/
theorem collectOutputs_length (n sid1 : Nat) (ws5 : Workspace) :
    (collectOutputs n sid1 ws5).length = n := by
  simp [collectOutputs]

/-- Element `i` of the collection loop is output slot `i` converted
through `AsTensorList`. -/
theorem collectOutputs_get (n sid1 : Nat) (ws5 : Workspace) (i : Nat) (h : i < n) :
    (collectOutputs n sid1 ws5).get? i
      = some (AsTensorList (sid1 + i) (ws5.outputs.getD i defaultBatch)) := by
  unfold collectOutputs
  rw [List.get?_eq_getElem?, List.getElem?_map, List.getElem?_range h]
  rfl

/-- On the no-error path, the outputs of `RunImpl` are the collection of
the final workspace's output slots. -/
theorem runImpl_ok_outputs (dop : DirectOperator) (di dou : Bool) (ws0 : Workspace)
    (sid0 : Nat) (ins : List Batch) (kws : List (String × Batch))
    (h : (RunImpl dop di dou ws0 sid0 ins kws).err = none) :
    (RunImpl dop di dou ws0 sid0 ins kws).outputs
      = collectOutputs dop.num_outputs (sid0 + dop.num_outputs)
          ((RunImpl dop di dou ws0 sid0 ins kws).ws) := by
  unfold RunImpl at h ⊢
  cases hs : dop.op.setup (assembleWs dop di dou ws0 sid0 ins kws) with
  | error e => rw [hs] at h; simp at h
  | ok p =>
    obtain ⟨setupRet, descs⟩ := p
    rw [hs] at h
    dsimp only at h ⊢
    cases hr : dop.op.run (materialize dop.op.canInferOutputs setupRet descs
        dop.num_outputs (assembleWs dop di dou ws0 sid0 ins kws)) with
    | error e => rw [hr] at h; simp at h
    | ok ws5 => rfl

/-- The population/`Setup` trace contains no stream synchronization. -/
theorem assembleTrace_no_sync (dop : DirectOperator) (ins : List Batch)
    (kws : List (String × Batch)) :
    Event.streamSync ∉ assembleTrace dop ins kws := by
  simp [assembleTrace]

/-- `RunImpl` itself never issues a stream synchronization. -/
theorem runImpl_no_sync (dop : DirectOperator) (di dou : Bool) (ws0 : Workspace)
    (sid0 : Nat) (ins : List Batch) (kws : List (String × Batch)) :
    Event.streamSync ∉ (RunImpl dop di dou ws0 sid0 ins kws).trace := by
  unfold RunImpl
  cases hs : dop.op.setup (assembleWs dop di dou ws0 sid0 ins kws) with
  | error e => exact assembleTrace_no_sync dop ins kws
  | ok p =>
    obtain ⟨setupRet, descs⟩ := p
    dsimp only
    cases hr : dop.op.run (materialize dop.op.canInferOutputs setupRet descs
        dop.num_outputs (assembleWs dop di dou ws0 sid0 ins kws)) with
    | error e => exact assembleTrace_no_sync dop ins kws
    | ok ws5 =>
      dsimp only
      intro hmem
      rcases List.mem_append.mp hmem with hmem1 | hmem2
      · rcases List.mem_append.mp hmem1 with hmem3 | hmem4
        · exact assembleTrace_no_sync dop ins kws hmem3
        · simp at hmem4
      · rcases List.mem_map.mp hmem2 with ⟨e, _, he⟩
        exact Event.noConfusion he

/-- On the no-error path, the operator's completed `Run` is recorded in
the `RunImpl` trace. -/
theorem runImpl_ok_opRun (dop : DirectOperator) (di dou : Bool) (ws0 : Workspace)
    (sid0 : Nat) (ins : List Batch) (kws : List (String × Batch))
    (h : (RunImpl dop di dou ws0 sid0 ins kws).err = none) :
    Event.opRun ∈ (RunImpl dop di dou ws0 sid0 ins kws).trace := by
  unfold RunImpl at h ⊢
  cases hs : dop.op.setup (assembleWs dop di dou ws0 sid0 ins kws) with
  | error e => rw [hs] at h; simp at h
  | ok p =>
    obtain ⟨setupRet, descs⟩ := p
    rw [hs] at h
    dsimp only at h ⊢
    cases hr : dop.op.run (materialize dop.op.canInferOutputs setupRet descs
        dop.num_outputs (assembleWs dop di dou ws0 sid0 ins kws)) with
    | error e => rw [hr] at h; simp at h
    | ok ws5 => simp

/-- Unrolling of the resize loop: entry `i` of the result is entry `i` of
the source, resized to descriptor `i0 + i` exactly when `i0 + i` is below
the declared output count. -/
theorem resizeLoop_getD (descs : List OutputDesc) (n : Nat) :
    ∀ (outs : List Batch) (i0 i : Nat), i < outs.length →
      (resizeLoop descs n i0 outs).getD i defaultBatch =
        if i0 + i < n then
          (outs.getD i defaultBatch).resize (descAt descs (i0 + i)).shape
            (descAt descs (i0 + i)).type
        else outs.getD i defaultBatch := by
  intro outs
  induction outs with
  | nil => intro i0 i h; exact absurd h (by simp)
  | cons b rest ih =>
    intro i0 i h
    cases i with
    | zero => simp [resizeLoop]
    | succ j =>
      have hj : j < rest.length := by simpa using Nat.lt_of_succ_lt_succ h
      have := ih (i0 + 1) j hj
      simp only [resizeLoop, List.getD_cons_succ]
      rw [this]
      have harith : i0 + 1 + j = i0 + (j + 1) := by omega
      rw [harith]

/-! ## Claim theorems -/

/-- Claim C4: an input batch with an empty layout tag receives the
schema's default layout looked up by its input index and sample rank,
keeps an empty layout when the schema declares no default for that index
and rank, and an input batch with a non-empty layout tag is never
overwritten. -/
theorem claim_C4 (schema : OpSchema) (k : Bool) (i : Nat) (inp : Batch) :
    (inp.layout = "" → schema.getInputLayout i inp.sampleDim "" ≠ "" →
      (wrapInput schema k i inp).layout = schema.getInputLayout i inp.sampleDim "") ∧
    (inp.layout = "" → schema.getInputLayout i inp.sampleDim "" = "" →
      (wrapInput schema k i inp).layout = "") ∧
    (inp.layout ≠ "" → (wrapInput schema k i inp).layout = inp.layout) := by
  refine ⟨fun h1 h2 => ?_, fun h1 h2 => ?_, fun h1 => ?_⟩
  · simp only [Batch.sampleDim] at h2
    simp [wrapInput, Batch.sampleDim, h1, h2]
  · simp only [Batch.sampleDim] at h2
    simp [wrapInput, Batch.sampleDim, h1, h2]
  · simp [wrapInput, h1]

/-- Witness for C4 at concrete inputs: the default layout is assigned to
an untagged batch, an untagged batch stays untagged when the schema has no
default, and an existing tag survives. -/
theorem claim_C4_witness :
    ((sampleInput false).layout = "" ∧
      OpSchema.getInputLayout { numOutput := 1, getInputLayout := fun _ _ _ => "HW" } 0
        (sampleInput false).sampleDim "" ≠ "" ∧
      (sampleInput false).layout = "" ∧
      sampleSchema.getInputLayout 0 (sampleInput false).sampleDim "" = "" ∧
      ({ sampleInput false with layout := "WH" } : Batch).layout ≠ "") ∧
    (wrapInput { numOutput := 1, getInputLayout := fun _ _ _ => "HW" } false 0
        (sampleInput false)).layout = "HW" ∧
    (wrapInput sampleSchema false 0 (sampleInput false)).layout = "" ∧
    (wrapInput sampleSchema false 0 { sampleInput false with layout := "WH" }).layout
      = ({ sampleInput false with layout := "WH" } : Batch).layout :=
  ⟨⟨by decide, by decide, by decide, by decide, by decide⟩,
    (claim_C4 { numOutput := 1, getInputLayout := fun _ _ _ => "HW" } false 0
      (sampleInput false)).1 (by decide) (by decide),
    (claim_C4 sampleSchema false 0 (sampleInput false)).2.1 (by decide) (by decide),
    (claim_C4 sampleSchema false 0 { sampleInput false with layout := "WH" }).2.2
      (by decide)⟩

/-- Claim C5: converting a per-sample batch to the dense representation
always copies: the result is a dense batch owning fresh storage, with the
same samples (hence sample count, shapes and values) and element type as
the source, and it shares storage with no batch other than the fresh
allocation. -/
theorem claim_C5 (freshSid : Nat) (b : Batch) (h : b.dense = false) :
    (AsTensorList freshSid b).dense = true ∧
    (AsTensorList freshSid b).samples = b.samples ∧
    (AsTensorList freshSid b).dtype = b.dtype ∧
    (AsTensorList freshSid b).sid = freshSid ∧
    (∀ other : Batch, other.sid ≠ freshSid → (AsTensorList freshSid b).sid ≠ other.sid) := by
  simp [AsTensorList, AsTensorListPerSample, h]
  intro other hne
  exact fun e => hne e.symm

/-- Witness for C5: converting the concrete per-sample input batch. -/
theorem claim_C5_witness :
    (sampleInput false).dense = false ∧
    ((AsTensorList 50 (sampleInput false)).dense = true ∧
      (AsTensorList 50 (sampleInput false)).samples = (sampleInput false).samples ∧
      (AsTensorList 50 (sampleInput false)).dtype = (sampleInput false).dtype ∧
      (AsTensorList 50 (sampleInput false)).sid = 50 ∧
      (∀ other : Batch, other.sid ≠ 50 → (AsTensorList 50 (sampleInput false)).sid ≠ other.sid)) :=
  ⟨by decide, claim_C5 50 (sampleInput false) (by decide)⟩

/-- Claim C6: converting a dense batch to the dense representation is the
identity: the same handle, with the same storage identity, is returned
and no copy is made. -/
theorem claim_C6 (freshSid : Nat) (b : Batch) (h : b.dense = true) :
    AsTensorList freshSid b = b ∧
    (AsTensorList freshSid b).sid = b.sid ∧
    AsTensorListDense b = b := by
  simp [AsTensorList, AsTensorListDense, h]

/-- Witness for C6: converting the concrete dense input batch. -/
theorem claim_C6_witness :
    (sampleInput true).dense = true ∧
    (AsTensorList 50 (sampleInput true) = sampleInput true ∧
      (AsTensorList 50 (sampleInput true)).sid = (sampleInput true).sid ∧
      AsTensorListDense (sampleInput true) = sampleInput true) :=
  ⟨by decide, claim_C6 50 (sampleInput true) (by decide)⟩

/-- Claim C7: for each supported backend pair, the default-path `Run`
call is the explicit-binding `Run` call made with the wrapper's current
shared default (thread pool for host, CUDA stream for accelerator and
staged), so the whole outcome — in particular the output values — is
independent of the binding mechanism. -/
theorem claim_C7 (dop : DirectOperator) (g : GlobalState) (st : EngineState)
    (inputs : List Batch) (kwargs : List (String × Batch)) :
    RunDefault dop OpBackend.cpu DataBackend.cpu DataBackend.cpu g st inputs kwargs
      = RunWithThreadPool dop OpBackend.cpu DataBackend.cpu DataBackend.cpu
          (g.sharedThreadPool OpBackend.cpu) st inputs kwargs ∧
    RunDefault dop OpBackend.gpu DataBackend.gpu DataBackend.gpu g st inputs kwargs
      = RunWithCudaStream dop OpBackend.gpu DataBackend.gpu DataBackend.gpu
          (g.sharedCudaStream OpBackend.gpu) st inputs kwargs ∧
    RunDefault dop OpBackend.mixed DataBackend.cpu DataBackend.gpu g st inputs kwargs
      = RunWithCudaStream dop OpBackend.mixed DataBackend.cpu DataBackend.gpu
          (g.sharedCudaStream OpBackend.mixed) st inputs kwargs :=
  ⟨rfl, rfl, rfl⟩

/-- Claim C9: the descriptor list is indexed at every position below the
declared output count without a bounds check; when `Setup` populates at
least as many descriptors as declared outputs, every such access is in
bounds and the out-of-bounds fallback of the embedded indexing is never
taken. -/
theorem claim_C9 (descs : List OutputDesc) (n : Nat) (h : n ≤ descs.length) :
    ∀ i, ∀ hi : i < n, (descs.get? i).isSome = true ∧
      descAt descs i = descs.get ⟨i, lt_of_lt_of_le hi h⟩ := by
  intro i hi
  have hlen : i < descs.length := lt_of_lt_of_le hi h
  have hg : descs.get? i = some (descs.get ⟨i, hlen⟩) := List.get?_eq_get hlen
  refine ⟨?_, ?_⟩
  · rw [hg]; rfl
  · unfold descAt; rw [hg]; rfl

/-- Witness for C9 at a concrete one-element descriptor list. -/
theorem claim_C9_witness :
    1 ≤ ([{ shape := [[2]], type := 1 }] : List OutputDesc).length ∧
    ((([{ shape := [[2]], type := 1 }] : List OutputDesc).get? 0).isSome = true ∧
      descAt [{ shape := [[2]], type := 1 }] 0
        = ([{ shape := [[2]], type := 1 }] : List OutputDesc).get ⟨0, by decide⟩) :=
  ⟨by decide, claim_C9 [{ shape := [[2]], type := 1 }] 1 (by decide) 0 (by decide)⟩

/-- Claim C10: the shared thread pool and shared CUDA stream are separate
static state per wrapper type; setting either through one wrapper leaves
both defaults of every other wrapper unchanged. -/
theorem claim_C10 (g : GlobalState) (w w2 : OpBackend) (nt dev : Int) (aff : Bool)
    (d : Int) (poolGet : Int → Nat) (h : w ≠ w2) :
    (SetThreadPool w nt dev aff g).sharedThreadPool w2 = g.sharedThreadPool w2 ∧
    (SetThreadPool w nt dev aff g).sharedCudaStream w2 = g.sharedCudaStream w2 ∧
    (SetCudaStream poolGet w d g).sharedCudaStream w2 = g.sharedCudaStream w2 ∧
    (SetCudaStream poolGet w d g).sharedThreadPool w2 = g.sharedThreadPool w2 := by
  have h2 : ¬(w2 = w) := fun e => h e.symm
  refine ⟨?_, rfl, ?_, ?_⟩
  · simp [SetThreadPool, h2]
  · unfold SetCudaStream
    split
    · simp [h2]
    · rfl
  · unfold SetCudaStream
    split <;> rfl

/-- Witness for C10: setting the host wrapper's pool and stream leaves the
accelerator wrapper's defaults untouched. -/
theorem claim_C10_witness :
    OpBackend.cpu ≠ OpBackend.gpu ∧
    ((SetThreadPool OpBackend.cpu 4 0 false initialGlobalState).sharedThreadPool OpBackend.gpu
        = initialGlobalState.sharedThreadPool OpBackend.gpu ∧
      (SetThreadPool OpBackend.cpu 4 0 false initialGlobalState).sharedCudaStream OpBackend.gpu
        = initialGlobalState.sharedCudaStream OpBackend.gpu ∧
      (SetCudaStream (fun _ => 9) OpBackend.cpu 2 initialGlobalState).sharedCudaStream OpBackend.gpu
        = initialGlobalState.sharedCudaStream OpBackend.gpu ∧
      (SetCudaStream (fun _ => 9) OpBackend.cpu 2 initialGlobalState).sharedThreadPool OpBackend.gpu
        = initialGlobalState.sharedThreadPool OpBackend.gpu) :=
  ⟨by decide, claim_C10 initialGlobalState OpBackend.cpu OpBackend.gpu 4 0 false 2
    (fun _ => 9) (by decide)⟩

/-- Claim C2: for every (input-backend, output-backend) pair other than
the three supported pairs host→host, accelerator→accelerator and
host→accelerator, each of the three `Run` overloads fails immediately with
its unsupported-combination error, leaving the instance state untouched
and performing no engine step (empty trace, so no workspace mutation and
no operator invocation). -/
theorem claim_C2 (dop : DirectOperator) (wrapper : OpBackend) (inB outB : DataBackend)
    (g : GlobalState) (st : EngineState) (tp : ThreadPoolCfg) (stream : Nat)
    (inputs : List Batch) (kwargs : List (String × Batch))
    (h : ¬((inB = DataBackend.cpu ∧ outB = DataBackend.cpu) ∨
           (inB = DataBackend.gpu ∧ outB = DataBackend.gpu) ∨
           (inB = DataBackend.cpu ∧ outB = DataBackend.gpu))) :
    RunDefault dop wrapper inB outB g st inputs kwargs
      = { res := Except.error "Unsupported backends in DirectOperator.Run().",
          st := st, trace := [] } ∧
    RunWithThreadPool dop wrapper inB outB tp st inputs kwargs
      = { res := Except.error "Unsupported backends in DirectOperator.Run() with thread pool.",
          st := st, trace := [] } ∧
    RunWithCudaStream dop wrapper inB outB stream st inputs kwargs
      = { res := Except.error "Unsupported backends in DirectOperator.Run() with CUDA stream",
          st := st, trace := [] } := by
  cases inB <;> cases outB
  · exact absurd (Or.inl ⟨rfl, rfl⟩) h
  · exact absurd (Or.inr (Or.inr ⟨rfl, rfl⟩)) h
  · cases wrapper <;> exact ⟨rfl, rfl, rfl⟩
  · exact absurd (Or.inr (Or.inl ⟨rfl, rfl⟩)) h

/-- Witness for C2: the accelerator→host pair on the host wrapper fails in
all three overloads without touching the state. -/
theorem claim_C2_witness :
    (¬((DataBackend.gpu = DataBackend.cpu ∧ DataBackend.cpu = DataBackend.cpu) ∨
        (DataBackend.gpu = DataBackend.gpu ∧ DataBackend.cpu = DataBackend.gpu) ∨
        (DataBackend.gpu = DataBackend.cpu ∧ DataBackend.cpu = DataBackend.gpu))) ∧
    (RunDefault sampleDop OpBackend.cpu DataBackend.gpu DataBackend.cpu initialGlobalState
        sampleState [sampleInput true] []
      = { res := Except.error "Unsupported backends in DirectOperator.Run().",
          st := sampleState, trace := [] } ∧
    RunWithThreadPool sampleDop OpBackend.cpu DataBackend.gpu DataBackend.cpu sampleTp
        sampleState [sampleInput true] []
      = { res := Except.error "Unsupported backends in DirectOperator.Run() with thread pool.",
          st := sampleState, trace := [] } ∧
    RunWithCudaStream sampleDop OpBackend.cpu DataBackend.gpu DataBackend.cpu 5
        sampleState [sampleInput true] []
      = { res := Except.error "Unsupported backends in DirectOperator.Run() with CUDA stream",
          st := sampleState, trace := [] }) :=
  ⟨by decide, claim_C2 sampleDop OpBackend.cpu DataBackend.gpu DataBackend.cpu
    initialGlobalState sampleState sampleTp 5 [sampleInput true] [] (by decide)⟩

/-- Claim C1: on each of the three supported backend pairs, a `Run` call
that completes without error returns exactly one output batch per output
declared by the schema — the count fixed at construction — and in
declaration order: element `i` of the result is output slot `i` of the
workspace, converted through `AsTensorList`. -/
theorem claim_C1 (dop : DirectOperator) (tp : ThreadPoolCfg) (stream : Nat)
    (st : EngineState) (inputs : List Batch) (kwargs : List (String × Batch)) :
    (∀ outs,
      (RunWithThreadPool dop OpBackend.cpu DataBackend.cpu DataBackend.cpu tp st
        inputs kwargs).res = Except.ok outs →
      outs.length = dop.num_outputs ∧ ∃ base, ∀ i, i < dop.num_outputs →
        outs.get? i = some (AsTensorList (base + i)
          ((RunWithThreadPool dop OpBackend.cpu DataBackend.cpu DataBackend.cpu tp st
            inputs kwargs).st.ws.outputs.getD i defaultBatch))) ∧
    (∀ outs,
      (RunWithCudaStream dop OpBackend.gpu DataBackend.gpu DataBackend.gpu stream st
        inputs kwargs).res = Except.ok outs →
      outs.length = dop.num_outputs ∧ ∃ base, ∀ i, i < dop.num_outputs →
        outs.get? i = some (AsTensorList (base + i)
          ((RunWithCudaStream dop OpBackend.gpu DataBackend.gpu DataBackend.gpu stream st
            inputs kwargs).st.ws.outputs.getD i defaultBatch))) ∧
    (∀ outs,
      (RunWithCudaStream dop OpBackend.mixed DataBackend.cpu DataBackend.gpu stream st
        inputs kwargs).res = Except.ok outs →
      outs.length = dop.num_outputs ∧ ∃ base, ∀ i, i < dop.num_outputs →
        outs.get? i = some (AsTensorList (base + i)
          ((RunWithCudaStream dop OpBackend.mixed DataBackend.cpu DataBackend.gpu stream st
            inputs kwargs).st.ws.outputs.getD i defaultBatch))) ∧
    (∀ (spec : OpSpec) (inst : OpSpec → OperatorBase),
      (DirectOperator.ofSpec spec inst).num_outputs = spec.schema.numOutput) := by
  refine ⟨fun outs h => ?_, fun outs h => ?_, fun outs h => ?_, fun spec inst => rfl⟩
  · obtain ⟨hnone, houts⟩ := finishCall_ok _ _ _ _ h
    have hout := runImpl_ok_outputs dop false false
      { st.ws.clear with threadPool := some tp } st.nextSid inputs kwargs hnone
    refine ⟨?_, st.nextSid + dop.num_outputs, ?_⟩
    · rw [← houts, hout]; exact collectOutputs_length _ _ _
    · intro i hi
      rw [← houts, hout]
      exact collectOutputs_get _ _ _ i hi
  · obtain ⟨hnone, houts⟩ := finishCall_ok _ _ _ _ h
    have hout := runImpl_ok_outputs dop true true
      { st.ws.clear with stream := some stream } st.nextSid inputs kwargs hnone
    refine ⟨?_, st.nextSid + dop.num_outputs, ?_⟩
    · rw [← houts, hout]; exact collectOutputs_length _ _ _
    · intro i hi
      rw [← houts, hout]
      exact collectOutputs_get _ _ _ i hi
  · obtain ⟨hnone, houts⟩ := finishCall_ok _ _ _ _ h
    have hout := runImpl_ok_outputs dop false true
      { st.ws.clear with stream := some stream } st.nextSid inputs kwargs hnone
    refine ⟨?_, st.nextSid + dop.num_outputs, ?_⟩
    · rw [← houts, hout]; exact collectOutputs_length _ _ _
    · intro i hi
      rw [← houts, hout]
      exact collectOutputs_get _ _ _ i hi

/-- Witness for C1: the host-path sample run returns exactly the one
declared output, `{2, 3, 4, 5}`, in declaration order. -/
theorem claim_C1_witness :
    (RunWithThreadPool sampleDop OpBackend.cpu DataBackend.cpu DataBackend.cpu sampleTp
      sampleState [sampleInput false] []).res = Except.ok [sampleCpuOut] ∧
    ([sampleCpuOut].length = sampleDop.num_outputs ∧
      ∃ base, ∀ i, i < sampleDop.num_outputs →
        [sampleCpuOut].get? i = some (AsTensorList (base + i)
          ((RunWithThreadPool sampleDop OpBackend.cpu DataBackend.cpu DataBackend.cpu
            sampleTp sampleState [sampleInput false] []).st.ws.outputs.getD i defaultBatch))) :=
  ⟨by decide,
    (claim_C1 sampleDop sampleTp 5 sampleState [sampleInput false] []).1
      [sampleCpuOut] (by decide)⟩

/-- Claim C3: when `Setup` produced descriptors and the operator reports
shape-inference capability, each output slot `i` is resized in place to
the shape and element type of descriptor `i` before the operator runs;
when either condition fails, the materializer leaves the workspace — in
particular every output slot — untouched. -/
theorem claim_C3 (canInfer setupRet : Bool) (descs : List OutputDesc) (n : Nat)
    (ws : Workspace) :
    ((setupRet && canInfer) = true → ∀ i, i < n → i < ws.outputs.length →
      ((materialize canInfer setupRet descs n ws).outputs.getD i defaultBatch).samples.map
          Sample.shape = (descAt descs i).shape ∧
      ((materialize canInfer setupRet descs n ws).outputs.getD i defaultBatch).dtype
          = (descAt descs i).type) ∧
    ((setupRet && canInfer) = false → materialize canInfer setupRet descs n ws = ws) := by
  constructor
  · intro hc i hin hlen
    have hm : materialize canInfer setupRet descs n ws
        = { ws with outputs := resizeLoop descs n 0 ws.outputs } := by
      simp [materialize, hc]
    have hr := resizeLoop_getD descs n ws.outputs 0 i hlen
    simp only [Nat.zero_add] at hr
    rw [hm]
    rw [show ({ ws with outputs := resizeLoop descs n 0 ws.outputs } : Workspace).outputs
      = resizeLoop descs n 0 ws.outputs from rfl, hr, if_pos hin]
    constructor
    · simp only [Batch.resize, List.map_map]
      have hcomp : (Sample.shape ∘ fun s =>
          ({ shape := s, data := List.replicate (listProd s) 0 } : Sample)) = fun s => s := rfl
      rw [hcomp]
      simp
    · rfl
  · intro hc
    simp [materialize, hc]

/-- Witness for C3: with both conditions true the concrete slot takes the
descriptor's shape and type; with `Setup` reporting no descriptors the
workspace is unchanged. -/
theorem claim_C3_witness :
    ((true && true) = true ∧ (0 : Nat) < 1 ∧ 0 < sampleWs3.outputs.length ∧
      (false && true) = false) ∧
    (((materialize true true sampleDescs 1 sampleWs3).outputs.getD 0 defaultBatch).samples.map
        Sample.shape = (descAt sampleDescs 0).shape ∧
      ((materialize true true sampleDescs 1 sampleWs3).outputs.getD 0 defaultBatch).dtype
        = (descAt sampleDescs 0).type) ∧
    materialize true false sampleDescs 1 sampleWs3 = sampleWs3 :=
  ⟨⟨rfl, by decide, by decide, rfl⟩,
    (claim_C3 true true sampleDescs 1 sampleWs3).1 rfl 0 (by decide) (by decide),
    (claim_C3 true false sampleDescs 1 sampleWs3).2 rfl⟩

/-- Claim C8: an accelerator-path or staged-path `Run` call that completes
brackets the operator invocation with exactly two stream
synchronizations — the trace starts with one synchronization issued before
any workspace population, ends with one issued after the operator's
completed `Run` and before the outputs are returned, and contains no other
synchronization; the host path issues none at all. -/
theorem claim_C8 (dop : DirectOperator) (tp : ThreadPoolCfg) (stream : Nat)
    (st : EngineState) (inputs : List Batch) (kwargs : List (String × Batch)) :
    (RunWithThreadPool dop OpBackend.cpu DataBackend.cpu DataBackend.cpu tp st inputs
      kwargs).trace.count Event.streamSync = 0 ∧
    (∀ outs,
      (RunWithCudaStream dop OpBackend.gpu DataBackend.gpu DataBackend.gpu stream st
        inputs kwargs).res = Except.ok outs →
      ∃ t,
        (RunWithCudaStream dop OpBackend.gpu DataBackend.gpu DataBackend.gpu stream st
          inputs kwargs).trace = Event.streamSync :: (t ++ [Event.streamSync]) ∧
        Event.streamSync ∉ t ∧ Event.opRun ∈ t) ∧
    (∀ outs,
      (RunWithCudaStream dop OpBackend.mixed DataBackend.cpu DataBackend.gpu stream st
        inputs kwargs).res = Except.ok outs →
      ∃ t,
        (RunWithCudaStream dop OpBackend.mixed DataBackend.cpu DataBackend.gpu stream st
          inputs kwargs).trace = Event.streamSync :: (t ++ [Event.streamSync]) ∧
        Event.streamSync ∉ t ∧ Event.opRun ∈ t) := by
  refine ⟨?_, fun outs h => ?_, fun outs h => ?_⟩
  · have hns := runImpl_no_sync dop false false
      { st.ws.clear with threadPool := some tp } st.nextSid inputs kwargs
    simp [RunWithThreadPool, finishCall, List.count_append,
      List.count_eq_zero.mpr hns]
  · obtain ⟨hnone, _⟩ := finishCall_ok _ _ _ _ h
    refine ⟨(RunImpl dop true true { st.ws.clear with stream := some stream }
        st.nextSid inputs kwargs).trace, ?_,
      runImpl_no_sync dop true true _ st.nextSid inputs kwargs,
      runImpl_ok_opRun dop true true _ st.nextSid inputs kwargs hnone⟩
    show (finishCall _ [Event.streamSync] [Event.streamSync]).trace = _
    simp [finishCall, hnone]
  · obtain ⟨hnone, _⟩ := finishCall_ok _ _ _ _ h
    refine ⟨(RunImpl dop false true { st.ws.clear with stream := some stream }
        st.nextSid inputs kwargs).trace, ?_,
      runImpl_no_sync dop false true _ st.nextSid inputs kwargs,
      runImpl_ok_opRun dop false true _ st.nextSid inputs kwargs hnone⟩
    show (finishCall _ [Event.streamSync] [Event.streamSync]).trace = _
    simp [finishCall, hnone]

/-- Witness for C8: the accelerator-path and staged-path sample runs
complete, and their traces are a synchronization, a sync-free body
containing the operator run, and a final synchronization. -/
theorem claim_C8_witness :
    ((RunWithCudaStream sampleDop OpBackend.gpu DataBackend.gpu DataBackend.gpu 5
        sampleState [sampleInput true] []).res = Except.ok [sampleGpuOut] ∧
      (RunWithCudaStream sampleDop OpBackend.mixed DataBackend.cpu DataBackend.gpu 5
        sampleState [sampleInput false] []).res = Except.ok [sampleGpuOut]) ∧
    (∃ t,
      (RunWithCudaStream sampleDop OpBackend.gpu DataBackend.gpu DataBackend.gpu 5
        sampleState [sampleInput true] []).trace
          = Event.streamSync :: (t ++ [Event.streamSync]) ∧
      Event.streamSync ∉ t ∧ Event.opRun ∈ t) ∧
    (∃ t,
      (RunWithCudaStream sampleDop OpBackend.mixed DataBackend.cpu DataBackend.gpu 5
        sampleState [sampleInput false] []).trace
          = Event.streamSync :: (t ++ [Event.streamSync]) ∧
      Event.streamSync ∉ t ∧ Event.opRun ∈ t) :=
  ⟨⟨by decide, by decide⟩,
    (claim_C8 sampleDop sampleTp 5 sampleState [sampleInput true] []).2.1
      [sampleGpuOut] (by decide),
    (claim_C8 sampleDop sampleTp 5 sampleState [sampleInput false] []).2.2
      [sampleGpuOut] (by decide)⟩

end DaliDirect
